import Mathlib

/-!
Verification of `privacyidea/lib/tokens/ocratoken.py` (class `OcraTokenClass`).

The file under analysis is glue around external collaborators (the OCRA suite
engine, the challenge store, the config store, hash digests, the QR renderer,
the random string generator).  Those collaborators are modelled as an explicit
environment record `Env` of abstract functions; the logic of `ocratoken.py`
itself is embedded as pure Lean functions over that environment.

Python dictionaries passed as `options` / `param` are modelled as functions
`String → Option String` (`none` = key absent); the `attributes` dictionary
built by `create_challenge` is modelled as an association list in insertion
order.  Python integer parsing (`int(...)`) is modelled by `pyIntNat`, the
value of a non-negative decimal numeral; the code raises on non-numeric
input, which no claim exercises, so the model is total there.
-/

namespace OcraToken

/-- Python `str.lower()`: every character lower-cased. -/
def pyLower (s : String) : String :=
  String.mk (s.data.map Char.toLower)

/-- Python `str.capitalize()`: first character upper-cased, the rest
lower-cased. -/
def pyCapitalize (s : String) : String :=
  match s.data with
  | [] => ""
  | c :: cs => String.mk (c.toUpper :: cs.map Char.toLower)

/-- The sixteen lowercase hexadecimal digit characters. -/
def hexDigits : List Char := "0123456789abcdef".data

/-- One lowercase hex digit for a nibble value. -/
def hexChar (n : Nat) : Char :=
  hexDigits.getD n '0'

/-- `hexlify_and_unicode` from `privacyidea.lib.utils`: hex-encode a byte
sequence, two lowercase hex digits per byte, high nibble first. -/
def hexlify_and_unicode (bs : List Nat) : String :=
  String.mk (bs.flatMap (fun b => [hexChar (b / 16 % 16), hexChar (b % 16)]))

/-- `to_bytes` from `privacyidea.lib.utils`: UTF-8 encode a string. -/
def to_bytes (s : String) : List Nat :=
  s.toUTF8.data.toList.map UInt8.toNat

/-- A character is a lowercase hexadecimal digit. -/
def isLowerHexChar (c : Char) : Bool :=
  c.isDigit || ('a' ≤ c && c ≤ 'f')

/-- Python `int(...)` on a non-negative decimal numeral string (the code
raises on other input, which no claim exercises). -/
def pyIntNat (s : String) : Nat :=
  s.data.foldl (fun acc c => acc * 10 + (c.toNat - '0'.toNat)) 0

/-- Python `str.strip()`: remove leading and trailing whitespace. -/
def pyStrip (s : String) : String :=
  String.mk (((s.data.dropWhile Char.isWhitespace).reverse.dropWhile
    Char.isWhitespace).reverse)

/-- `OCRA_DEFAULT_SUITE` from `ocratoken.py`. -/
def OCRA_DEFAULT_SUITE : String := "OCRA-1:HOTP-SHA1-8:QH40"

/-- Python `x or default` for an optional string (both `None` and the empty
string are falsy). -/
def pyOrDefault (o : Option String) (d : String) : String :=
  match o with
  | none => d
  | some s => if s.isEmpty then d else s

/-- A Python dictionary of string request parameters. -/
abbrev Options := String → Option String

/-- A user object as returned by `get_user_from_param`. -/
structure User where
  login : String
  realm : String
deriving DecidableEq, Repr

/-- The fields of the token database object that `OcraTokenClass` reads. -/
structure Token where
  serial : String
  otpkey : String
  tokentype : String
  info : String → Option String

/-- The external collaborators consumed by `OcraTokenClass`, as abstract
functions: hash digests (`hashlib`), the random alphanumeric generator
(`get_alphanum_str`), the QR renderer (`create_img`), the suite engine
(`OCRASuite.create_challenge` given a suite descriptor), the transaction id
the challenge store allocates when `Challenge.save` is called with
`transaction_id=None`, the config store (`int(get_from_config(key, d))`,
values modelled after the `int` conversion), and the OCRA response check
(`OCRA(ocrasuite, security_object).check_response(passw, question=...)`,
taking the suite descriptor, the otp key, the password and the question). -/
structure Env where
  sha1 : List Nat → List Nat
  sha256 : List Nat → List Nat
  sha512 : List Nat → List Nat
  get_alphanum_str : Nat → String
  create_img : String → String
  suite_create_challenge : String → String
  new_transaction_id : String
  config : String → Option Int
  check_response : Option String → String → String → String → Int

/-- The persisted challenge row (`privacyidea.models.Challenge`) after
`save()`: the store fills in the transaction id when it was `None`. -/
structure ChallengeRecord where
  serial : String
  transaction_id : String
  challenge : String
  validitytime : Int
deriving DecidableEq, Repr

/-- The tuple returned by `create_challenge`, together with the row that was
persisted (the reply dictionary is `{"attributes": attributes}`). -/
structure ChallengeResult where
  success : Bool
  message : String
  transaction_id : String
  attributes : List (String × String)
  persisted : ChallengeRecord
deriving DecidableEq, Repr

/-- Lines 208-228 of `ocratoken.py`: determine the challenge value to persist
and the extra attributes.  If the caller supplied no challenge (absent key or
empty string, both falsy in Python), a suite-conformant challenge is
generated; otherwise an optional random alphanumeric suffix is appended, the
pre-hash cleartext is recorded as `original_challenge` together with its QR
rendering, and the optional hashing option is applied. -/
def build_challenge (env : Env) (options : Options) (ocrasuite : String) :
    String × List (String × String) :=
  let challenge0 := (options "challenge").getD ""
  if challenge0.isEmpty then
    (env.suite_create_challenge ocrasuite, [])
  else
    let addRnd := (options "addrandomchallenge").getD ""
    let challenge :=
      if !addRnd.isEmpty then
        challenge0 ++ env.get_alphanum_str (pyIntNat addRnd)
      else challenge0
    let attributes := [("original_challenge", challenge),
                       ("qrcode", env.create_img challenge)]
    let hashOpt := (options "hashchallenge").getD ""
    let challenge :=
      if pyLower hashOpt = "sha256" then
        hexlify_and_unicode (env.sha256 (to_bytes challenge))
      else if pyLower hashOpt = "sha512" then
        hexlify_and_unicode (env.sha512 (to_bytes challenge))
      else if !hashOpt.isEmpty then
        hexlify_and_unicode (env.sha1 (to_bytes challenge))
      else challenge
    (challenge, attributes)

/-- `OcraTokenClass.create_challenge` (lines 175-243).  The `transactionid`
argument mirrors the Python signature; the code constructs the `Challenge` row
with `transaction_id=None` (line 233), so the store-allocated id is always
used. -/
def create_challenge (env : Env) (tok : Token) (transactionid : Option String)
    (options : Options) : ChallengeResult :=
  let message := "Please answer the challenge"
  let validity : Int := (env.config "DefaultChallengeValidityTime").getD 120
  let tokentype := pyLower tok.tokentype
  let lookup_for := pyCapitalize tokentype ++ "ChallengeValidityTime"
  let validity : Int := (env.config lookup_for).getD validity
  let ocrasuite := pyOrDefault (tok.info "ocrasuite") OCRA_DEFAULT_SUITE
  let ca := build_challenge env options ocrasuite
  let db : ChallengeRecord :=
    { serial := tok.serial
      transaction_id := ((none : Option String).getD env.new_transaction_id)
      challenge := ca.1
      validitytime := validity }
  { success := true
    message := message
    transaction_id := db.transaction_id
    attributes := ca.2 ++ [("challenge", ca.1)]
    persisted := db }

/-- `OcraTokenClass.verify_response` (lines 245-261): delegate entirely to the
OCRA engine, passing the stored suite descriptor (no default here), the
token's secret and the question. -/
def verify_response (env : Env) (tok : Token) (passw : String)
    (challenge : String) : Int :=
  env.check_response (tok.info "ocrasuite") tok.otpkey passw challenge

/-- `OcraTokenClass.check_otp` (lines 263-276): `options['challenge']` is a
hard dictionary access, so a missing key raises `KeyError`; `counter` and
`window` do not occur in the body. -/
def check_otp (env : Env) (tok : Token) (otpval : String)
    (counter window : Option Int) (options : Options) : Except String Int :=
  match options "challenge" with
  | none => Except.error "KeyError: challenge"
  | some chal => Except.ok (verify_response env tok otpval chal)

/-- The persisting side effects `OcraTokenClass.update` can perform, in the
order the code performs them. -/
inductive Effect where
  | addUser (u : User)
  | addTokeninfo (key value : String)
  | baseUpdate
  | setRealms (realms : List String)
deriving DecidableEq, Repr

/-- `OcraTokenClass.update` (lines 132-152), parameterised over the OCRA
suite grammar (`OCRASuite.__init__` raises on a descriptor `validSuite`
rejects) and over the result of `get_user_from_param`.  The result is the
list of side effects performed, in order, together with success or the
construction error; effects performed before an exception are kept, since the
code does not roll them back. -/
def update (validSuite : String → Bool) (userObject : Option User)
    (param : Options) : List Effect × Except String Unit :=
  let effects :=
    match userObject with
    | some u => [Effect.addUser u]
    | none => []
  let ocrasuite := (param "ocrasuite").getD OCRA_DEFAULT_SUITE
  if validSuite ocrasuite then
    let effects := effects ++
      [Effect.addTokeninfo "ocrasuite" ocrasuite, Effect.baseUpdate]
    let effects := effects ++
      (match userObject with
       | some u => [Effect.setRealms [u.realm]]
       | none => [])
    (effects, Except.ok ())
  else
    (effects, Except.error "Invalid OCRA suite")

/-- `OcraTokenClass.get_import_csv` (lines 278-298), parameterised over the
base importer `TokenClass.get_import_csv` (not part of the analysed sources).
Dictionaries are modelled as lookup functions: first any `otplen` entry the
base importer produced is deleted, then, when a fourth column exists, the
`ocrasuite` entry is set to its stripped value. -/
def get_import_csv (base : List String → Options) (l : List String) : Options :=
  let params := base l
  let params := fun k => if k = "otplen" then none else params k
  if 4 ≤ l.length then
    fun k => if k = "ocrasuite" then some (pyStrip (l.getD 3 "")) else params k
  else params

/-- Modelled from the spec: `get_alphanum_str` (from `privacyidea.lib.crypto`,
not part of the analysed sources) returns a random alphanumeric string of the
requested length. -/
def GetAlphanumStrSpec (f : Nat → String) : Prop :=
  ∀ n, (f n).length = n ∧ (f n).data.all Char.isAlphanum = true

/-- The hashing policy as the spec words it (step 4 of the ChallengeIssuer
algorithm): replace the cleartext with the hex digest selected by the hashing
option — SHA-256 for `sha256`, SHA-512 for `sha512`, SHA-1 for any other
truthy value — and keep the cleartext when the option is unset. -/
def spec_hash_policy (env : Env) (hashOpt : String) (cleartext : String) :
    String :=
  if pyLower hashOpt = "sha256" then
    hexlify_and_unicode (env.sha256 (to_bytes cleartext))
  else if pyLower hashOpt = "sha512" then
    hexlify_and_unicode (env.sha512 (to_bytes cleartext))
  else if !hashOpt.isEmpty then
    hexlify_and_unicode (env.sha1 (to_bytes cleartext))
  else cleartext

/-- The challenge cleartext of the caller-supplied branch as the spec words
it: the supplied challenge, extended by a random alphanumeric suffix of the
requested length when `addrandomchallenge` is set. -/
def supplied_cleartext (env : Env) (options : Options) : String :=
  let base := (options "challenge").getD ""
  let addRnd := (options "addrandomchallenge").getD ""
  if !addRnd.isEmpty then
    base ++ env.get_alphanum_str (pyIntNat addRnd)
  else base

/-- A sample environment with constant collaborators, used to evaluate the
operations on concrete inputs. -/
def sampleEnv : Env where
  sha1 := fun _ => [1]
  sha256 := fun _ => [2]
  sha512 := fun _ => [3]
  get_alphanum_str := fun n => String.mk (List.replicate n 'a')
  create_img := fun s => "IMG:" ++ s
  suite_create_challenge := fun _ => "GENCHAL"
  new_transaction_id := "TXID-STORE"
  config := fun _ => none
  check_response := fun _ _ _ _ => 1

/-- A sample ocra token with a stored suite descriptor. -/
def sampleToken : Token where
  serial := "OCRA0001"
  otpkey := "3132333435363738393031323334353637383930"
  tokentype := "ocra"
  info := fun k => if k = "ocrasuite" then some "OCRA-1:HOTP-SHA1-6:QN08" else none

/-! ## Helper lemmas -/

/-- Every nibble encoding is a lowercase hex digit. -/
theorem isLowerHexChar_hexChar (n : Nat) : isLowerHexChar (hexChar n) = true := by
  by_cases h : n < 16
  · unfold hexChar hexDigits
    interval_cases n <;> decide
  · unfold hexChar
    rw [List.getD_eq_default]
    · decide
    · have h16 : hexDigits.length = 16 := rfl
      omega

/-- The hex encoding of any byte sequence consists of lowercase hex digits. -/
theorem hexlify_all_lower (bs : List Nat) :
    (hexlify_and_unicode bs).data.all isLowerHexChar = true := by
  induction bs with
  | nil => rfl
  | cons b bs ih =>
    show ((b :: bs).flatMap
      (fun b => [hexChar (b / 16 % 16), hexChar (b % 16)])).all isLowerHexChar = true
    rw [List.flatMap_cons, List.all_append]
    have h1 := isLowerHexChar_hexChar (b / 16 % 16)
    have h2 := isLowerHexChar_hexChar (b % 16)
    simp only [List.all_cons, h1, h2, Bool.true_and, Bool.and_true]
    exact ih

/-! ## Concrete inputs used by the claims -/

/-- The options dictionary of claim C3. -/
def optsC3 : Options := fun k =>
  if k = "challenge" then some "12345678"
  else if k = "hashchallenge" then some "sha256" else none

/-- The options dictionary of claim C6. -/
def optsC6 : Options := fun k =>
  if k = "challenge" then some "ABCDEFGH"
  else if k = "addrandomchallenge" then some "4" else none

/-- An options dictionary with only a hashing option set. -/
def optsHashOnly : Options := fun k =>
  if k = "hashchallenge" then some "sha256" else none

/-- An options dictionary with only an empty-string challenge. -/
def optsEmptyChallenge : Options := fun k =>
  if k = "challenge" then some "" else none

/-- An options dictionary carrying only a challenge value. -/
def optsWithQuestion : Options := fun k =>
  if k = "challenge" then some "QUESTION" else none

/-! ## Claim theorems -/

/-- Claim C3 (confirmed): `create_challenge` with options
`{challenge: "12345678", hashchallenge: "sha256"}` persists the lowercase hex
SHA-256 digest of `"12345678"`, and the returned attributes contain
`original_challenge = "12345678"`, a QR rendering of it, and `challenge`
equal to the persisted (hashed) value. -/
theorem create_challenge_sha256_hash_example (env : Env) (tok : Token) :
    (create_challenge env tok none optsC3).persisted.challenge =
      hexlify_and_unicode (env.sha256 (to_bytes "12345678")) ∧
    ((create_challenge env tok none optsC3).persisted.challenge).data.all
      isLowerHexChar = true ∧
    (create_challenge env tok none optsC3).attributes.lookup
      "original_challenge" = some "12345678" ∧
    (create_challenge env tok none optsC3).attributes.lookup "qrcode" =
      some (env.create_img "12345678") ∧
    (create_challenge env tok none optsC3).attributes.lookup "challenge" =
      some ((create_challenge env tok none optsC3).persisted.challenge) := by
  refine ⟨rfl, ?_, rfl, rfl, rfl⟩
  exact hexlify_all_lower (env.sha256 (to_bytes "12345678"))

/-- Claim C2, counterexample: with a hashing option set but no caller-supplied
challenge, the suite-generated cleartext is persisted as-is, not its SHA-256
digest — the hashing options only apply in the caller-supplied branch. -/
theorem generated_challenge_not_hashed_counterexample :
    (create_challenge sampleEnv sampleToken none optsHashOnly).persisted.challenge
      = "GENCHAL" ∧
    hexlify_and_unicode (sampleEnv.sha256 (to_bytes "GENCHAL")) = "02" ∧
    (create_challenge sampleEnv sampleToken none optsHashOnly).persisted.challenge
      ≠ hexlify_and_unicode (sampleEnv.sha256 (to_bytes "GENCHAL")) := by
  refine ⟨rfl, rfl, ?_⟩
  decide

/-- Claim C2 (amended): the persisted challenge value is the suite-generated
cleartext, unhashed, whenever the caller supplied no (or an empty) challenge;
only in the caller-supplied branch is the hashing policy (SHA-256 for
`sha256`, SHA-512 for `sha512`, SHA-1 for any other truthy value, identity
otherwise) applied to the — possibly suffix-augmented — cleartext. -/
theorem create_challenge_hash_policy (env : Env) (tok : Token)
    (tid : Option String) (options : Options) :
    (create_challenge env tok tid options).persisted.challenge =
      if ((options "challenge").getD "").isEmpty then
        env.suite_create_challenge
          (pyOrDefault (tok.info "ocrasuite") OCRA_DEFAULT_SUITE)
      else
        spec_hash_policy env ((options "hashchallenge").getD "")
          (supplied_cleartext env options) := by
  have hc : (create_challenge env tok tid options).persisted.challenge =
      (build_challenge env options
        (pyOrDefault (tok.info "ocrasuite") OCRA_DEFAULT_SUITE)).1 := rfl
  rw [hc]
  unfold build_challenge spec_hash_policy supplied_cleartext
  by_cases h : ((options "challenge").getD "").isEmpty
  · simp [h]
  · simp [h]

/-- Claim C4, counterexample: a caller-supplied transaction id is not used;
the persisted and returned id is the store-allocated one. -/
theorem custom_transactionid_ignored_counterexample :
    (create_challenge sampleEnv sampleToken (some "CUSTOM")
      (fun _ => none)).transaction_id = "TXID-STORE" ∧
    (create_challenge sampleEnv sampleToken (some "CUSTOM")
      (fun _ => none)).persisted.transaction_id = "TXID-STORE" ∧
    ("TXID-STORE" : String) ≠ "CUSTOM" := by
  refine ⟨rfl, rfl, ?_⟩
  decide

/-- Claim C4 (amended): the `transactionid` argument of `create_challenge` is
ignored — the result is identical with and without it — and the Challenge row
is always constructed with `transaction_id=None`, so the persisted and
returned transaction id is always the store-allocated one. -/
theorem create_challenge_transactionid_ignored (env : Env) (tok : Token)
    (t : String) (options : Options) :
    create_challenge env tok (some t) options =
      create_challenge env tok none options ∧
    (create_challenge env tok (some t) options).transaction_id =
      env.new_transaction_id ∧
    (create_challenge env tok (some t) options).persisted.transaction_id =
      env.new_transaction_id :=
  ⟨rfl, rfl, rfl⟩

/-- Claim C5 (confirmed): with a challenge in the options, `check_otp` returns
exactly `verify_response` of the password and that challenge, and the
`counter` and `window` arguments have no effect on the result. -/
theorem check_otp_ignores_counter_window (env : Env) (tok : Token)
    (otpval : String) (counter window counter2 window2 : Option Int)
    (options : Options) (chal : String)
    (h : options "challenge" = some chal) :
    check_otp env tok otpval counter window options =
      Except.ok (verify_response env tok otpval chal) ∧
    check_otp env tok otpval counter window options =
      check_otp env tok otpval counter2 window2 options := by
  unfold check_otp
  rw [h]
  exact ⟨rfl, rfl⟩

/-- Claim C5, witness at a concrete password, challenge, counter and window. -/
theorem check_otp_ignores_counter_window_witness :
    check_otp sampleEnv sampleToken "pw" (some 5) (some 3) optsWithQuestion =
      Except.ok (verify_response sampleEnv sampleToken "pw" "QUESTION") ∧
    check_otp sampleEnv sampleToken "pw" (some 5) (some 3) optsWithQuestion =
      check_otp sampleEnv sampleToken "pw" none none optsWithQuestion :=
  check_otp_ignores_counter_window sampleEnv sampleToken "pw"
    (some 5) (some 3) none none optsWithQuestion "QUESTION" rfl

/-- Claim C6 (confirmed): `create_challenge` with options
`{challenge: "ABCDEFGH", addrandomchallenge: "4"}` and no hashing option
persists `"ABCDEFGH"` extended by the 4-character alphanumeric random suffix
(total length 12, suffix alphanumeric), and `original_challenge` equals that
same pre-hash cleartext, suffix included.  The behaviour of the external
`get_alphanum_str` is assumed as `GetAlphanumStrSpec`. -/
theorem create_challenge_addrandom_example (env : Env) (tok : Token)
    (h : GetAlphanumStrSpec env.get_alphanum_str) :
    (create_challenge env tok none optsC6).persisted.challenge =
      "ABCDEFGH" ++ env.get_alphanum_str 4 ∧
    (create_challenge env tok none optsC6).persisted.challenge.length = 12 ∧
    ((create_challenge env tok none optsC6).persisted.challenge.data.drop
      8).all Char.isAlphanum = true ∧
    (create_challenge env tok none optsC6).attributes.lookup
      "original_challenge" =
      some ((create_challenge env tok none optsC6).persisted.challenge) := by
  obtain ⟨hlen, halpha⟩ := h 4
  refine ⟨rfl, ?_, ?_, rfl⟩
  · show ("ABCDEFGH" ++ env.get_alphanum_str 4).length = 12
    rw [String.length_append, hlen]
    decide
  · show (("ABCDEFGH" ++ env.get_alphanum_str 4).data.drop 8).all
      Char.isAlphanum = true
    exact halpha

/-- Claim C6, witness with a concrete alphanumeric generator. -/
theorem create_challenge_addrandom_example_witness :
    (create_challenge sampleEnv sampleToken none optsC6).persisted.challenge =
      "ABCDEFGH" ++ sampleEnv.get_alphanum_str 4 ∧
    (create_challenge sampleEnv sampleToken none
      optsC6).persisted.challenge.length = 12 ∧
    ((create_challenge sampleEnv sampleToken none
      optsC6).persisted.challenge.data.drop 8).all Char.isAlphanum = true ∧
    (create_challenge sampleEnv sampleToken none optsC6).attributes.lookup
      "original_challenge" =
      some ((create_challenge sampleEnv sampleToken none
        optsC6).persisted.challenge) := by
  have hspec : GetAlphanumStrSpec sampleEnv.get_alphanum_str := by
    intro n
    constructor
    · show (String.mk (List.replicate n 'a')).length = n
      simp [String.length]
    · show (String.mk (List.replicate n 'a')).data.all Char.isAlphanum = true
      simp only [List.all_eq_true]
      intro c hc
      rw [List.eq_of_mem_replicate hc]
      decide
  exact create_challenge_addrandom_example sampleEnv sampleToken hspec

/-- Claim C7 (confirmed): the validity window persisted with the challenge is
the type-specific config value `OcraChallengeValidityTime` when set, else the
global `DefaultChallengeValidityTime` when set, else 120 seconds. -/
theorem create_challenge_validity_resolution (env : Env) (tok : Token)
    (tid : Option String) (options : Options) (h : tok.tokentype = "ocra") :
    (create_challenge env tok tid options).persisted.validitytime =
      (env.config "OcraChallengeValidityTime").getD
        ((env.config "DefaultChallengeValidityTime").getD 120) := by
  have hl : pyCapitalize (pyLower tok.tokentype) ++ "ChallengeValidityTime" =
      "OcraChallengeValidityTime" := by
    rw [h]
    decide
  show (env.config (pyCapitalize (pyLower tok.tokentype) ++
      "ChallengeValidityTime")).getD
      ((env.config "DefaultChallengeValidityTime").getD 120) = _
  rw [hl]

/-- A config store with both validity keys set, the type-specific one to 300. -/
def envBothValidity : Env :=
  { sampleEnv with
    config := fun k =>
      if k = "OcraChallengeValidityTime" then some 300
      else if k = "DefaultChallengeValidityTime" then some 200 else none }

/-- Claim C7, witness: with both keys configured, the type-specific value
wins. -/
theorem create_challenge_validity_resolution_witness :
    (create_challenge envBothValidity sampleToken none
      (fun _ => none)).persisted.validitytime = 300 := by
  have h := create_challenge_validity_resolution envBothValidity sampleToken
    none (fun _ => none) rfl
  rw [h]
  decide

/-- Claim C1, counterexample: with a malformed suite descriptor and a user in
the parameter bag, `update` has already performed the user binding
(`add_user`) when the suite construction fails — the claim that no user
binding happens on error is false. -/
theorem update_invalid_suite_user_bound_counterexample :
    (update (fun _ => false) (some ⟨"hans", "realm1"⟩) (fun _ => none)).1 =
      [Effect.addUser ⟨"hans", "realm1"⟩] ∧
    (update (fun _ => false) (some ⟨"hans", "realm1"⟩) (fun _ => none)).2 =
      Except.error "Invalid OCRA suite" ∧
    (update (fun _ => false) (some ⟨"hans", "realm1"⟩) (fun _ => none)).1 ≠
      ([] : List Effect) := by
  refine ⟨rfl, rfl, ?_⟩
  decide

/-- Claim C1 (amended): when the suite descriptor is rejected, `update` fails
before the token-info write, the base-class update and the realm assignment —
but after the user binding, which the code performs before validating the
descriptor, so a supplied user has already been bound when the error is
raised. -/
theorem update_invalid_suite_fails_after_user_binding
    (validSuite : String → Bool) (userObject : Option User) (param : Options)
    (h : validSuite ((param "ocrasuite").getD OCRA_DEFAULT_SUITE) = false) :
    update validSuite userObject param =
      ((match userObject with
        | some u => [Effect.addUser u]
        | none => []),
       Except.error "Invalid OCRA suite") := by
  simp only [update, h, Bool.false_eq_true, if_false]

/-- Claim C1, witness for the amended statement. -/
theorem update_invalid_suite_fails_after_user_binding_witness :
    update (fun _ => false) (some ⟨"hans", "realm1"⟩) (fun _ => none) =
      ([Effect.addUser ⟨"hans", "realm1"⟩],
       Except.error "Invalid OCRA suite") :=
  update_invalid_suite_fails_after_user_binding (fun _ => false)
    (some ⟨"hans", "realm1"⟩) (fun _ => none) rfl

/-- Claim C8 (confirmed): for every base importer result and every row with at
least four columns, the import parameters map the stripped fourth column to
`ocrasuite` and carry no `otplen` entry. -/
theorem get_import_csv_ocrasuite_no_otplen (base : List String → Options)
    (l : List String) (h : 4 ≤ l.length) :
    get_import_csv base l "otplen" = none ∧
    get_import_csv base l "ocrasuite" = some (pyStrip (l.getD 3 "")) := by
  unfold get_import_csv
  rw [if_pos h]
  constructor
  · simp
  · simp

/-- A base importer that sets an `otplen` entry, as `TokenClass`'s generic
importer may. -/
def baseImporterWithOtplen : List String → Options := fun _ k =>
  if k = "otplen" then some "6" else none

/-- The CSV row of claim C8. -/
def csvRow : List String := ["user1", "pw", "pin", "OCRA-1:HOTP-SHA1-6:QN08"]

/-- Claim C8, witness: the concrete row yields
`ocrasuite = "OCRA-1:HOTP-SHA1-6:QN08"` and no `otplen` key although the base
importer set one. -/
theorem get_import_csv_ocrasuite_no_otplen_witness :
    get_import_csv baseImporterWithOtplen csvRow "otplen" = none ∧
    get_import_csv baseImporterWithOtplen csvRow "ocrasuite" =
      some "OCRA-1:HOTP-SHA1-6:QN08" ∧
    baseImporterWithOtplen csvRow "otplen" = some "6" := by
  have h := get_import_csv_ocrasuite_no_otplen baseImporterWithOtplen csvRow
    (by decide)
  refine ⟨h.1, ?_, rfl⟩
  rw [h.2]
  decide

/-- Claim C9 (confirmed): when the options carry no `challenge` key,
`check_otp` fails with the missing-key error before any verification, and in
particular never returns the no-match value `-1`. -/
theorem check_otp_missing_challenge_errors (env : Env) (tok : Token)
    (otpval : String) (counter window : Option Int) (options : Options)
    (h : options "challenge" = none) :
    check_otp env tok otpval counter window options =
      Except.error "KeyError: challenge" ∧
    check_otp env tok otpval counter window options ≠
      Except.ok (-1 : Int) := by
  unfold check_otp
  rw [h]
  exact ⟨rfl, by simp⟩

/-- Claim C9, witness with an empty options dictionary. -/
theorem check_otp_missing_challenge_errors_witness :
    check_otp sampleEnv sampleToken "pw" none none (fun _ => none) =
      Except.error "KeyError: challenge" ∧
    check_otp sampleEnv sampleToken "pw" none none (fun _ => none) ≠
      Except.ok (-1 : Int) :=
  check_otp_missing_challenge_errors sampleEnv sampleToken "pw" none none
    (fun _ => none) rfl

/-- Claim C10 (confirmed): a caller-supplied empty-string challenge is treated
exactly like an absent one — the result is identical to the call without the
key, the persisted value is the suite-generated challenge with no hashing or
suffix applied, and the attributes carry neither `original_challenge` nor
`qrcode`. -/
theorem create_challenge_empty_challenge_generated (env : Env) (tok : Token)
    (tid : Option String) (options : Options)
    (h : options "challenge" = some "") :
    create_challenge env tok tid options =
      create_challenge env tok tid
        (fun k => if k = "challenge" then none else options k) ∧
    (create_challenge env tok tid options).persisted.challenge =
      env.suite_create_challenge
        (pyOrDefault (tok.info "ocrasuite") OCRA_DEFAULT_SUITE) ∧
    (create_challenge env tok tid options).attributes =
      [("challenge", env.suite_create_challenge
        (pyOrDefault (tok.info "ocrasuite") OCRA_DEFAULT_SUITE))] ∧
    (create_challenge env tok tid options).attributes.lookup
      "original_challenge" = none ∧
    (create_challenge env tok tid options).attributes.lookup "qrcode" =
      none := by
  have hb : build_challenge env options
      (pyOrDefault (tok.info "ocrasuite") OCRA_DEFAULT_SUITE) =
      (env.suite_create_challenge
        (pyOrDefault (tok.info "ocrasuite") OCRA_DEFAULT_SUITE), []) := by
    unfold build_challenge
    rw [h]
    rfl
  have hb2 : build_challenge env
      (fun k => if k = "challenge" then none else options k)
      (pyOrDefault (tok.info "ocrasuite") OCRA_DEFAULT_SUITE) =
      (env.suite_create_challenge
        (pyOrDefault (tok.info "ocrasuite") OCRA_DEFAULT_SUITE), []) := rfl
  refine ⟨?_, ?_, ?_, ?_, ?_⟩ <;>
    simp [create_challenge, hb, hb2]

/-- Claim C10, witness with a concrete empty-string challenge option. -/
theorem create_challenge_empty_challenge_generated_witness :
    create_challenge sampleEnv sampleToken none optsEmptyChallenge =
      create_challenge sampleEnv sampleToken none
        (fun k => if k = "challenge" then none else optsEmptyChallenge k) ∧
    (create_challenge sampleEnv sampleToken none
      optsEmptyChallenge).persisted.challenge =
      sampleEnv.suite_create_challenge
        (pyOrDefault (sampleToken.info "ocrasuite") OCRA_DEFAULT_SUITE) ∧
    (create_challenge sampleEnv sampleToken none
      optsEmptyChallenge).attributes =
      [("challenge", sampleEnv.suite_create_challenge
        (pyOrDefault (sampleToken.info "ocrasuite") OCRA_DEFAULT_SUITE))] ∧
    (create_challenge sampleEnv sampleToken none
      optsEmptyChallenge).attributes.lookup "original_challenge" = none ∧
    (create_challenge sampleEnv sampleToken none
      optsEmptyChallenge).attributes.lookup "qrcode" = none :=
  create_challenge_empty_challenge_generated sampleEnv sampleToken none
    optsEmptyChallenge rfl

end OcraToken

